import Mathlib

/-!
Verification development for the `eve-sso` OAuth2 single-sign-on client
(`src/index.ts`).  The TypeScript class `SingleSignOn` is shallowly embedded:
its constructor becomes `EveSso.mkSso`, its three operations become
`SingleSignOn.getRedirectUrl`, `SingleSignOn.getAccessToken` and
`SingleSignOn.refreshToken`.  The external collaborators used by the source
(Node `querystring.stringify`, the `form-urlencoded` package, Node
`Buffer.from(...).toString("base64")`, Node legacy `url.parse(...).hostname`)
are modelled as executable Lean functions.  HTTP transport is out of scope:
a token-exchange call is modelled by the single request value it issues.
-/

namespace EveSso

/-- UTF-8 encoding of a Unicode code point as a list of byte values.
Models how Node `Buffer.from(string)` and `encodeURIComponent` turn
characters into bytes before any base64/percent encoding. -/
def utf8Bytes (n : Nat) : List Nat :=
  if n < 128 then [n]
  else if n < 2048 then [192 + n / 64, 128 + n % 64]
  else if n < 65536 then [224 + n / 4096, 128 + n / 64 % 64, 128 + n % 64]
  else [240 + n / 262144, 128 + n / 4096 % 64, 128 + n / 64 % 64, 128 + n % 64]

/-- UTF-8 bytes of a whole string. -/
def utf8Encode (s : String) : List Nat :=
  (s.data.map (fun c => utf8Bytes c.toNat)).flatten

/-- The base64 alphabet, RFC 4648. -/
def base64Alphabet : List Char :=
  "ABCDEFGHIJKLMNOPQRSTUVWXYZabcdefghijklmnopqrstuvwxyz0123456789+/".data

/-- The base64 digit for a 6-bit value. -/
def base64Digit (n : Nat) : Char := base64Alphabet.getD n (Char.ofNat 65)

/-- Base64 encoding with `=` padding of a byte list.  Models Node
`Buffer.prototype.toString("base64")` as used on line 47 of the source. -/
def base64Encode : List Nat → String
  | [] => ""
  | [a] =>
    String.mk [base64Digit (a / 4), base64Digit (a % 4 * 16)] ++ "=="
  | [a, b] =>
    String.mk [base64Digit (a / 4), base64Digit (a % 4 * 16 + b / 16),
      base64Digit (b % 16 * 4)] ++ "="
  | a :: b :: c :: rest =>
    String.mk [base64Digit (a / 4), base64Digit (a % 4 * 16 + b / 16),
      base64Digit (b % 16 * 4 + c / 64), base64Digit (c % 64)] ++ base64Encode rest

/-- Upper-case hex digits. -/
def hexDigits : List Char := "0123456789ABCDEF".data

/-- `%XX` percent-escape of one byte value. -/
def percentByte (b : Nat) : String :=
  String.mk [Char.ofNat 37, hexDigits.getD (b / 16) (Char.ofNat 48),
    hexDigits.getD (b % 16) (Char.ofNat 48)]

/-- Characters left unescaped by `encodeURIComponent` (and by Node
`querystring.escape`): ASCII letters, digits, and `- _ . ! ~ * ( )` and
the apostrophe (codes 45 95 46 33 126 42 40 41 39). -/
def uriUnescaped (c : Char) : Bool :=
  (65 ≤ c.toNat && c.toNat ≤ 90) || (97 ≤ c.toNat && c.toNat ≤ 122) ||
  (48 ≤ c.toNat && c.toNat ≤ 57) ||
  [45, 95, 46, 33, 126, 42, 40, 41, 39].contains c.toNat

/-- Percent-escaping of a query value, models Node `querystring.escape`
(equivalent to `encodeURIComponent`; a space becomes `%20`). -/
def qsEscape (s : String) : String :=
  String.join (s.data.map fun c =>
    if uriUnescaped c then String.mk [c]
    else String.join ((utf8Bytes c.toNat).map percentByte))

/-- Node `querystring.stringify` on a flat string-valued object in insertion
order: `k=v` pairs joined by `&`, keys and values percent-escaped. -/
def qsStringify : List (String × String) → String
  | [] => ""
  | [p] => qsEscape p.1 ++ ("=" ++ qsEscape p.2)
  | p :: q :: rest =>
    qsEscape p.1 ++ ("=" ++ (qsEscape p.2 ++ ("&" ++ qsStringify (q :: rest))))

/-- Escaping used by the `form-urlencoded` package with default options:
`encodeURIComponent`, but a space (code 32) becomes `+`. -/
def formEscape (s : String) : String :=
  String.join (s.data.map fun c =>
    if c.toNat = 32 then "+"
    else if uriUnescaped c then String.mk [c]
    else String.join ((utf8Bytes c.toNat).map percentByte))

/-- The `form-urlencoded` package (default options) on a flat string-valued
object in insertion order. -/
def formUrlEncoded : List (String × String) → String
  | [] => ""
  | [p] => formEscape p.1 ++ ("=" ++ formEscape p.2)
  | p :: q :: rest =>
    formEscape p.1 ++ ("=" ++ (formEscape p.2 ++ ("&" ++ formUrlEncoded (q :: rest))))

/-- JavaScript `s.split(" ")`: split on every single space character. -/
def jsSplitSpace (s : String) : List String :=
  (List.splitOn (Char.ofNat 32) s.data).map String.mk

/-- JavaScript `l.join(" ")`. -/
def jsJoinSpace (l : List String) : String :=
  String.mk (List.intercalate [Char.ofNat 32] (l.map String.data))

/-- Node legacy `url.parse(u).hostname`: `none` models the `null` (or empty)
hostname Node produces when the string has no parsable `proto://host` part.
Modelled for `scheme://host[:port][/path?query#hash]` shapes (userinfo is
not modelled, the library never uses it): the authority after `//` up to
`/ ? # :`, lower-cased; `none` when the protocol or the host is missing or
empty.  Codes: 58 `:`, 47 `/`, 63 `?`, 35 `#`. -/
def hostnameOf (u : String) : Option String :=
  match List.splitOn (Char.ofNat 58) u.data with
  | proto :: rest :: _ =>
    if proto.length = 0 || proto.any (fun c => c.toNat == 47) then none
    else
      match rest with
      | a :: b :: host =>
        if a.toNat == 47 && b.toNat == 47 then
          let h := host.takeWhile fun c =>
            c.toNat != 47 && c.toNat != 63 && c.toNat != 35
          if h.length = 0 then none else some (String.mk (h.map Char.toLower))
        else none
      | _ => none
  | _ => none

/-- The `scopes` union type of the source: a single space-delimited string
(`Sum.inl`) or an array of scope tokens (`Sum.inr`). -/
abbrev ScopesArg := Sum String (List String)

/-- JavaScript truthiness of a present `scopes` value: a string is truthy
iff nonempty; an array is always truthy (even `[]`). -/
def scopesTruthy : ScopesArg → Bool
  | Sum.inl s => s != ""
  | Sum.inr _ => true

/-- Truthiness of an optional `scopes` argument (`none` models `undefined`). -/
def optScopesTruthy : Option ScopesArg → Bool
  | some sc => scopesTruthy sc
  | none => false

/-- `Array.isArray(scopes) ? scopes.join(" ") : scopes` from the source. -/
def joinScopesArg : ScopesArg → String
  | Sum.inl s => s
  | Sum.inr l => jsJoinSpace l

/-- The `SingleSignOnOptions` interface of the source (`undefined` fields
are `none`). -/
structure SingleSignOnOptions where
  endpoint : Option String
  userAgent : Option String
  scopes : Option ScopesArg
deriving DecidableEq

/-- JavaScript `v || d` for an optional string: the default is used when the
field is absent or falsy (empty). -/
def jsOrDefault (v : Option String) (d : String) : String :=
  match v with
  | some s => if s = "" then d else s
  | none => d

/-- The production endpoint default from line 39 of the source. -/
def defaultEndpoint : String := "https://login.eveonline.com"

/-- Modelled from the spec: the default user agent is the composite
`"{name}@{version} - nodejs@{process.version} - {homepage}"` built from
`package.json` fields and the runtime version, none of which are under
`src/`; its exact value is irrelevant to every claim, only that it is a
fixed construction-time string. -/
def defaultUserAgent : String :=
  "eve-sso@4.0.0 - nodejs@v16.0.0 - https://github.com/LakMoore/eve-sso"

/-- Normalisation of the constructor option `scopes` (source lines 42-45):
only a truthy value is stored; a string is split on spaces, an array is
kept as-is. -/
def normalizeScopes : Option ScopesArg → Option (List String)
  | some (Sum.inl s) => if s = "" then none else some (jsSplitSpace s)
  | some (Sum.inr l) => some l
  | none => none

/-- The `SingleSignOn` class state after construction: the public readonly
fields, the private secret, and the two values derived once at
construction (`authorization`, `host`).  `host` is an `Option` because
`url.parse(endpoint).hostname` can be `null`. -/
structure SingleSignOn where
  clientId : String
  secretKey : String
  callbackUri : String
  endpoint : String
  userAgent : String
  scopes : Option (List String)
  authorization : String
  host : Option String
deriving DecidableEq

/-- The constructor (source lines 29-50). -/
def mkSso (clientId secretKey callbackUri : String)
    (opts : SingleSignOnOptions) : SingleSignOn :=
  let endpoint := jsOrDefault opts.endpoint defaultEndpoint
  { clientId := clientId
    secretKey := secretKey
    callbackUri := callbackUri
    endpoint := endpoint
    userAgent := jsOrDefault opts.userAgent defaultUserAgent
    scopes := normalizeScopes opts.scopes
    authorization := base64Encode (utf8Encode (clientId ++ ":" ++ secretKey))
    host := hostnameOf endpoint }

/-- The default-scope fallback `this.scopes ? this.scopes.join(" ") : ""`
reached when the explicit argument is absent or falsy (source lines 59-65). -/
def fallbackScope (c : SingleSignOn) : String :=
  match c.scopes with
  | some l => jsJoinSpace l
  | none => ""

/-- Scope resolution of `getRedirectUrl` (source lines 59-65): a truthy
explicit argument wins (array joined, string as-is); otherwise the
construction-time scopes; otherwise the empty string. -/
def resolveScope (c : SingleSignOn) : Option ScopesArg → String
  | some (Sum.inl s) => if s = "" then fallbackScope c else s
  | some (Sum.inr l) => jsJoinSpace l
  | none => fallbackScope c

/-- The query object built by `getRedirectUrl` (source lines 67-76), in
insertion order; `state` is appended only when truthy. -/
def redirectQuery (c : SingleSignOn) (state : Option String)
    (scopes : Option ScopesArg) : List (String × String) :=
  [("response_type", "code"), ("redirect_uri", c.callbackUri),
   ("client_id", c.clientId), ("scope", resolveScope c scopes)] ++
  (match state with
   | some s => if s = "" then [] else [("state", s)]
   | none => [])

/-- `getRedirectUrl` (source lines 58-79). -/
def SingleSignOn.getRedirectUrl (c : SingleSignOn) (state : Option String)
    (scopes : Option ScopesArg) : String :=
  c.endpoint ++ ("/v2/oauth/authorize?" ++ qsStringify (redirectQuery c state scopes))

/-- The one HTTP request a token-exchange call issues: method and URL as
configured by `bent(endpoint, "json", "POST")`, the form-urlencoded body,
and the four explicit headers. -/
structure TokenRequest where
  method : String
  url : String
  body : String
  host : Option String
  authorization : String
  contentType : String
  userAgent : String
deriving DecidableEq

/-- The payload object of `getAccessToken` (source lines 88-91). -/
def accessTokenPayload (code : String) : List (String × String) :=
  [("grant_type", "authorization_code"), ("code", code)]

/-- The payload object of `refreshToken` (source lines 109-116): `scope` is
added only when the `scopes` argument is truthy (array joined, string
as-is); the construction-time scopes are never consulted. -/
def refreshPayload (refreshToken : String)
    (scopes : Option ScopesArg) : List (String × String) :=
  [("grant_type", "refresh_token"), ("refresh_token", refreshToken)] ++
  (match scopes with
   | some (Sum.inl s) => if s = "" then [] else [("scope", s)]
   | some (Sum.inr l) => [("scope", jsJoinSpace l)]
   | none => [])

/-- `getAccessToken` (source lines 87-99), modelled by the request it issues. -/
def SingleSignOn.getAccessToken (c : SingleSignOn) (code : String) : TokenRequest :=
  { method := "POST"
    url := c.endpoint ++ "/v2/oauth/token"
    body := formUrlEncoded (accessTokenPayload code)
    host := c.host
    authorization := "Basic " ++ c.authorization
    contentType := "application/x-www-form-urlencoded"
    userAgent := c.userAgent }

/-- `refreshToken` (source lines 108-124), modelled by the request it issues. -/
def SingleSignOn.refreshToken (c : SingleSignOn) (refreshToken : String)
    (scopes : Option ScopesArg) : TokenRequest :=
  { method := "POST"
    url := c.endpoint ++ "/v2/oauth/token"
    body := formUrlEncoded (refreshPayload refreshToken scopes)
    host := c.host
    authorization := "Basic " ++ c.authorization
    contentType := "application/x-www-form-urlencoded"
    userAgent := c.userAgent }

/-- The four headers of a token request, as one tuple. -/
def requestHeaders (r : TokenRequest) : Option String × String × String × String :=
  (r.host, r.authorization, r.contentType, r.userAgent)

/-- The `&state=...` tail the query string gains when a truthy state is
supplied, and nothing otherwise. -/
def stateSuffix : Option String → String
  | some s => if s = "" then "" else "&state=" ++ qsEscape s
  | none => ""

set_option maxRecDepth 4000

theorem strAppend_empty (s : String) : s ++ "" = s := by
  cases s with
  | mk d => exact congrArg String.mk (List.append_nil d)

/-- Closed form of the redirect URL: the four required parameters in order,
percent-escaped, followed by the optional state suffix. -/
theorem getRedirectUrl_eq (c : SingleSignOn) (state : Option String)
    (scopes : Option ScopesArg) :
    c.getRedirectUrl state scopes =
      c.endpoint ++ ("/v2/oauth/authorize?response_type=code&redirect_uri=" ++
        (qsEscape c.callbackUri ++ ("&client_id=" ++ (qsEscape c.clientId ++
          ("&scope=" ++ (qsEscape (resolveScope c scopes) ++ stateSuffix state)))))) := by
  cases state with
  | none =>
    simp only [stateSuffix]
    rw [strAppend_empty]
    rfl
  | some s =>
    by_cases h : s = ""
    · subst h
      simp only [SingleSignOn.getRedirectUrl, redirectQuery, stateSuffix, reduceIte]
      rw [strAppend_empty]
      rfl
    · simp only [SingleSignOn.getRedirectUrl, redirectQuery, stateSuffix, if_neg h]
      rfl

/-- JavaScript `s.split(" ").join(" ")` round-trips. -/
theorem jsJoin_jsSplit (s : String) : jsJoinSpace (jsSplitSpace s) = s := by
  unfold jsJoinSpace jsSplitSpace
  rw [List.map_map]
  have h : (String.data ∘ String.mk) = id := rfl
  rw [h, List.map_id, List.intercalate_splitOn]

/-- C1: for every state and scopes argument, `getRedirectUrl` returns
`<endpoint>/v2/oauth/authorize?<query>` where the query always starts with
`response_type=code`, `redirect_uri=<callbackUri>`, `client_id=<clientId>`
and `scope=<resolved scope string>`, each value percent-encoded; and on the
client (`clientId="abc"`, `secretKey="xyz"`,
`callbackUri="https://app.example/cb"`, default endpoint) the call
`getRedirectUrl("s1", "esi-mail.read_mail.v1 publicData")` returns exactly
the URL of the spec scenario. -/
theorem C1_getRedirectUrl_contract :
    (∀ (c : SingleSignOn) (state : Option String) (scopes : Option ScopesArg),
      ∃ rest : String,
        c.getRedirectUrl state scopes =
          c.endpoint ++ ("/v2/oauth/authorize?response_type=code&redirect_uri=" ++
            (qsEscape c.callbackUri ++ ("&client_id=" ++ (qsEscape c.clientId ++
              ("&scope=" ++ (qsEscape (resolveScope c scopes) ++ rest))))))) ∧
    (mkSso "abc" "xyz" "https://app.example/cb" ⟨none, none, none⟩).getRedirectUrl
        (some "s1") (some (Sum.inl "esi-mail.read_mail.v1 publicData")) =
      "https://login.eveonline.com/v2/oauth/authorize?response_type=code&redirect_uri=https%3A%2F%2Fapp.example%2Fcb&client_id=abc&scope=esi-mail.read_mail.v1%20publicData&state=s1" :=
  ⟨fun c state scopes => ⟨stateSuffix state, getRedirectUrl_eq c state scopes⟩,
   by decide⟩

/-- C2 counterexample: for the empty string the claimed equivalence fails.
On a client whose construction-time default scopes are `["publicData"]`,
passing the scopes string `""` (falsy, so the default applies) produces a
different URL than passing `"".split(" ") = [""]` (a truthy array, which
overrides with an empty scope). -/
theorem C2_counterexample :
    (mkSso "abc" "xyz" "https://app.example/cb"
          ⟨none, none, some (Sum.inr ["publicData"])⟩).getRedirectUrl
        none (some (Sum.inl "")) ≠
      (mkSso "abc" "xyz" "https://app.example/cb"
          ⟨none, none, some (Sum.inr ["publicData"])⟩).getRedirectUrl
        none (some (Sum.inr (jsSplitSpace ""))) := by
  decide

/-- C2 (amended): for every nonempty space-delimited scope string `s`,
`getRedirectUrl` with `s` produces the same URL as with the sequence
obtained by splitting `s` on single spaces, and a client constructed with
the string `s` equals one constructed with that split sequence. -/
theorem C2_string_split_equivalence (s : String) (h : s ≠ "") :
    (∀ (c : SingleSignOn) (state : Option String),
      c.getRedirectUrl state (some (Sum.inl s)) =
        c.getRedirectUrl state (some (Sum.inr (jsSplitSpace s)))) ∧
    (∀ (clientId secretKey callbackUri : String) (e ua : Option String),
      mkSso clientId secretKey callbackUri ⟨e, ua, some (Sum.inl s)⟩ =
        mkSso clientId secretKey callbackUri ⟨e, ua, some (Sum.inr (jsSplitSpace s))⟩) := by
  constructor
  · intro c state
    simp only [SingleSignOn.getRedirectUrl, redirectQuery, resolveScope, if_neg h,
      jsJoin_jsSplit]
  · intro clientId secretKey callbackUri e ua
    simp only [mkSso, normalizeScopes, if_neg h]

/-- C2 witness: the amended equivalence applied to the concrete scope
string of the spec scenario. -/
theorem C2_string_split_equivalence_witness :
    (mkSso "abc" "xyz" "https://app.example/cb" ⟨none, none, none⟩).getRedirectUrl
        none (some (Sum.inl "esi-mail.read_mail.v1 publicData")) =
      (mkSso "abc" "xyz" "https://app.example/cb" ⟨none, none, none⟩).getRedirectUrl
        none (some (Sum.inr (jsSplitSpace "esi-mail.read_mail.v1 publicData"))) :=
  (C2_string_split_equivalence "esi-mail.read_mail.v1 publicData" (by decide)).1
    (mkSso "abc" "xyz" "https://app.example/cb" ⟨none, none, none⟩) none

/-- C3 counterexample: a supplied scopes argument does not always override
the construction-time defaults.  On a client with default scopes
`["publicData"]`, explicitly supplying the (falsy) scopes string `""` still
resolves to `"publicData"`, not to the supplied value `""`. -/
theorem C3_counterexample :
    resolveScope (mkSso "abc" "xyz" "https://app.example/cb"
        ⟨none, none, some (Sum.inr ["publicData"])⟩) (some (Sum.inl "")) =
      "publicData" ∧
    joinScopesArg (Sum.inl "") = "" ∧
    ("publicData" : String) ≠ "" := by
  decide

/-- C3 (amended): scope precedence, with the empty-string edge made
explicit: a supplied truthy scopes argument (a nonempty string or any
array) always overrides the construction-time defaults; a supplied falsy
argument (the empty string) and an absent argument both fall back to the
construction-time defaults, or to `""` when those are unset; and the
`scope` parameter is always present in the query, never omitted. -/
theorem C3_scope_precedence (c : SingleSignOn) (state : Option String) :
    (∀ sc : ScopesArg, scopesTruthy sc = true →
      resolveScope c (some sc) = joinScopesArg sc) ∧
    (∀ sc : Option ScopesArg, optScopesTruthy sc = false →
      resolveScope c sc = fallbackScope c) ∧
    (∀ l : List String, c.scopes = some l → fallbackScope c = jsJoinSpace l) ∧
    (c.scopes = none → fallbackScope c = "") ∧
    (∀ sc : Option ScopesArg, ("scope", resolveScope c sc) ∈ redirectQuery c state sc) := by
  refine ⟨?_, ?_, ?_, ?_, ?_⟩
  · intro sc htruthy
    cases sc with
    | inl s =>
      simp only [scopesTruthy, bne_iff_ne, ne_eq] at htruthy
      simp only [resolveScope, joinScopesArg, if_neg htruthy]
    | inr l => rfl
  · intro sc hfalsy
    cases sc with
    | some sc =>
      cases sc with
      | inl s =>
        have hs : s = "" := by
          simpa [optScopesTruthy, scopesTruthy] using hfalsy
        simp only [resolveScope, if_pos hs]
      | inr l => simp [optScopesTruthy, scopesTruthy] at hfalsy
    | none => rfl
  · intro l hl
    simp only [fallbackScope, hl]
  · intro hl
    simp only [fallbackScope, hl]
  · intro sc
    simp [redirectQuery]

/-- C3 witness: the amended precedence applied on a concrete client with
default scopes `["publicData"]`: an explicit truthy argument overrides, an
absent one falls back to the default. -/
theorem C3_scope_precedence_witness :
    resolveScope (mkSso "abc" "xyz" "https://app.example/cb"
        ⟨none, none, some (Sum.inr ["publicData"])⟩)
      (some (Sum.inl "esi-mail.read_mail.v1")) =
      joinScopesArg (Sum.inl "esi-mail.read_mail.v1") :=
  (C3_scope_precedence (mkSso "abc" "xyz" "https://app.example/cb"
      ⟨none, none, some (Sum.inr ["publicData"])⟩) none).1
    (Sum.inl "esi-mail.read_mail.v1") (by decide)

/-- C4: the `state` query parameter is entirely absent when no state is
supplied, and when a non-empty state `s` is supplied the query gains
exactly the pair `("state", s)` at its end, i.e. the URL is the state-less
URL followed by `&state=<percent-encoded s>`. -/
theorem C4_state_parameter (c : SingleSignOn) (scopes : Option ScopesArg) :
    (∀ v : String, ("state", v) ∉ redirectQuery c none scopes) ∧
    (∀ s : String, s ≠ "" →
      redirectQuery c (some s) scopes =
        redirectQuery c none scopes ++ [("state", s)] ∧
      c.getRedirectUrl (some s) scopes =
        c.getRedirectUrl none scopes ++ ("&state=" ++ qsEscape s)) := by
  constructor
  · intro v
    simp [redirectQuery, Prod.ext_iff]
  · intro s h
    constructor
    · simp [redirectQuery, if_neg h]
    · rw [getRedirectUrl_eq, getRedirectUrl_eq]
      simp only [stateSuffix, if_neg h]
      rw [strAppend_empty]
      simp only [← String.append_assoc]

/-- C4 witness: applied at the concrete client of the spec scenario with
state `"s1"`. -/
theorem C4_state_parameter_witness :
    (mkSso "abc" "xyz" "https://app.example/cb" ⟨none, none, none⟩).getRedirectUrl
        (some "s1") none =
      (mkSso "abc" "xyz" "https://app.example/cb" ⟨none, none, none⟩).getRedirectUrl
        none none ++ ("&state=" ++ qsEscape "s1") :=
  ((C4_state_parameter (mkSso "abc" "xyz" "https://app.example/cb" ⟨none, none, none⟩)
      none).2 "s1" (by decide)).2

/-- C5: for every client constructed with `clientId` and `secretKey`, the
Authorization header of every `getAccessToken` and `refreshToken` call is
`Basic ` followed by the base64 encoding of `clientId:secretKey`, which is
exactly the credential stored at construction. -/
theorem C5_basic_auth_credential (clientId secretKey callbackUri : String)
    (opts : SingleSignOnOptions) (code rt : String) (sc : Option ScopesArg) :
    ((mkSso clientId secretKey callbackUri opts).getAccessToken code).authorization =
      "Basic " ++ base64Encode (utf8Encode (clientId ++ ":" ++ secretKey)) ∧
    ((mkSso clientId secretKey callbackUri opts).refreshToken rt sc).authorization =
      "Basic " ++ base64Encode (utf8Encode (clientId ++ ":" ++ secretKey)) ∧
    (mkSso clientId secretKey callbackUri opts).authorization =
      base64Encode (utf8Encode (clientId ++ ":" ++ secretKey)) :=
  ⟨rfl, rfl, rfl⟩

/-- C6: `getAccessToken` issues a single POST to
`{endpoint}/v2/oauth/token` whose form-urlencoded body is
`grant_type=authorization_code&code=<code>`; concretely, on the
`abc`/`xyz` client, `getAccessToken("AUTHCODE123")` sends body
`grant_type=authorization_code&code=AUTHCODE123` with header
`Authorization: Basic YWJjOnh5eg==`. -/
theorem C6_access_token_request :
    (∀ (c : SingleSignOn) (code : String),
      (c.getAccessToken code).method = "POST" ∧
      (c.getAccessToken code).url = c.endpoint ++ "/v2/oauth/token" ∧
      (c.getAccessToken code).body =
        "grant_type=authorization_code&code=" ++ formEscape code) ∧
    ((mkSso "abc" "xyz" "https://app.example/cb" ⟨none, none, none⟩).getAccessToken
        "AUTHCODE123").body = "grant_type=authorization_code&code=AUTHCODE123" ∧
    ((mkSso "abc" "xyz" "https://app.example/cb" ⟨none, none, none⟩).getAccessToken
        "AUTHCODE123").authorization = "Basic YWJjOnh5eg==" ∧
    ((mkSso "abc" "xyz" "https://app.example/cb" ⟨none, none, none⟩).getAccessToken
        "AUTHCODE123").url = "https://login.eveonline.com/v2/oauth/token" :=
  ⟨fun c code => ⟨rfl, rfl, rfl⟩, by decide, by decide, by decide⟩

/-- C7 counterexample: the scope field is not present whenever the scopes
argument is supplied: supplying the (falsy) empty string as scopes omits
the `scope` field from the body entirely. -/
theorem C7_counterexample :
    ("scope" ∈ (refreshPayload "RTOKEN" (some (Sum.inl ""))).map Prod.fst) = False ∧
    ((mkSso "abc" "xyz" "https://app.example/cb" ⟨none, none, none⟩).refreshToken
        "RTOKEN" (some (Sum.inl ""))).body =
      "grant_type=refresh_token&refresh_token=RTOKEN" := by
  constructor
  · simp [refreshPayload]
  · decide

/-- C7 (amended): every `refreshToken` call sends the body built from
`grant_type=refresh_token`, `refresh_token=<token>`, and a `scope` field
that is present iff the scopes argument is supplied and truthy (a nonempty
string or any array); when present its value is the joined scopes.  The
payload never consults the construction-time default scopes: it is the
same for every client. -/
theorem C7_refresh_scope_field (c : SingleSignOn) (rt : String)
    (sc : Option ScopesArg) :
    (c.refreshToken rt sc).body = formUrlEncoded (refreshPayload rt sc) ∧
    (refreshPayload rt sc).take 2 =
      [("grant_type", "refresh_token"), ("refresh_token", rt)] ∧
    ("scope" ∈ (refreshPayload rt sc).map Prod.fst ↔ optScopesTruthy sc = true) ∧
    (∀ sc2 : ScopesArg, scopesTruthy sc2 = true →
      refreshPayload rt (some sc2) =
        [("grant_type", "refresh_token"), ("refresh_token", rt),
         ("scope", joinScopesArg sc2)]) ∧
    (∀ c2 : SingleSignOn, (c.refreshToken rt sc).body = (c2.refreshToken rt sc).body) := by
  refine ⟨rfl, ?_, ?_, ?_, fun c2 => rfl⟩
  · cases sc with
    | some sc =>
      cases sc with
      | inl s =>
        by_cases h : s = ""
        · subst h; rfl
        · simp [refreshPayload, if_neg h]
      | inr l => rfl
    | none => rfl
  · cases sc with
    | some sc =>
      cases sc with
      | inl s =>
        by_cases h : s = ""
        · subst h
          simp [refreshPayload, optScopesTruthy, scopesTruthy]
        · simp [refreshPayload, if_neg h, optScopesTruthy, scopesTruthy, h]
      | inr l =>
        simp [refreshPayload, optScopesTruthy, scopesTruthy]
    | none =>
      simp [refreshPayload, optScopesTruthy]
  · intro sc2 htruthy
    cases sc2 with
    | inl s =>
      have h : s ≠ "" := by
        simpa [scopesTruthy] using htruthy
      simp [refreshPayload, if_neg h, joinScopesArg]
    | inr l => rfl

/-- C7 witness: the amended statement applied on the concrete scenario
`refreshToken("RTOKEN", ["scopeA", "scopeB"])`. -/
theorem C7_refresh_scope_field_witness :
    refreshPayload "RTOKEN" (some (Sum.inr ["scopeA", "scopeB"])) =
      [("grant_type", "refresh_token"), ("refresh_token", "RTOKEN"),
       ("scope", joinScopesArg (Sum.inr ["scopeA", "scopeB"]))] :=
  ((C7_refresh_scope_field (mkSso "abc" "xyz" "https://app.example/cb" ⟨none, none, none⟩)
      "RTOKEN" (some (Sum.inr ["scopeA", "scopeB"]))).2.2.2.1
    (Sum.inr ["scopeA", "scopeB"]) (by decide))

/-- C8: the Host, Authorization, Content-Type and User-Agent headers of
every `getAccessToken` and `refreshToken` call on the same client are
identical, equal to values derived from the construction parameters only,
and independent of the call arguments. -/
theorem C8_uniform_headers (clientId secretKey callbackUri : String)
    (opts : SingleSignOnOptions) (c : SingleSignOn)
    (code code2 rt rt2 : String) (sc sc2 : Option ScopesArg) :
    requestHeaders (c.getAccessToken code) = requestHeaders (c.refreshToken rt sc) ∧
    requestHeaders (c.getAccessToken code) =
      (c.host, "Basic " ++ c.authorization, "application/x-www-form-urlencoded",
        c.userAgent) ∧
    requestHeaders (c.getAccessToken code) = requestHeaders (c.getAccessToken code2) ∧
    requestHeaders (c.refreshToken rt sc) = requestHeaders (c.refreshToken rt2 sc2) ∧
    requestHeaders ((mkSso clientId secretKey callbackUri opts).getAccessToken code) =
      (hostnameOf (jsOrDefault opts.endpoint defaultEndpoint),
       "Basic " ++ base64Encode (utf8Encode (clientId ++ ":" ++ secretKey)),
       "application/x-www-form-urlencoded",
       jsOrDefault opts.userAgent defaultUserAgent) :=
  ⟨rfl, rfl, rfl, rfl, rfl⟩

/-- C9 counterexample: construction does not fail on an endpoint from which
no hostname can be derived.  With endpoint `"https://"` (hostname
underivable), the constructor still produces a fully populated client whose
derived host is simply unset, and token calls proceed with that unset
host. -/
theorem C9_counterexample :
    hostnameOf "https://" = none ∧
    (mkSso "abc" "xyz" "https://app.example/cb" ⟨some "https://", none, none⟩).host =
      none ∧
    (mkSso "abc" "xyz" "https://app.example/cb" ⟨some "https://", none, none⟩).endpoint =
      "https://" ∧
    (mkSso "abc" "xyz" "https://app.example/cb"
        ⟨some "https://", none, none⟩).clientId = "abc" ∧
    ((mkSso "abc" "xyz" "https://app.example/cb"
        ⟨some "https://", none, none⟩).getAccessToken "AUTHCODE123").host = none := by
  decide

/-- C9 (amended): an endpoint from which no hostname can be derived is
silently tolerated at construction: the constructor always returns a
client, the underivable hostname only surfaces as an unset derived host,
and subsequent token calls are issued with that unset Host header. -/
theorem C9_unparsable_endpoint_tolerated (clientId secretKey callbackUri : String)
    (opts : SingleSignOnOptions)
    (h : hostnameOf (jsOrDefault opts.endpoint defaultEndpoint) = none) :
    (mkSso clientId secretKey callbackUri opts).host = none ∧
    (mkSso clientId secretKey callbackUri opts).clientId = clientId ∧
    (mkSso clientId secretKey callbackUri opts).endpoint =
      jsOrDefault opts.endpoint defaultEndpoint ∧
    ∀ code : String,
      ((mkSso clientId secretKey callbackUri opts).getAccessToken code).host = none := by
  refine ⟨?_, rfl, rfl, ?_⟩
  · simpa [mkSso] using h
  · intro code
    simpa [mkSso, SingleSignOn.getAccessToken] using h

/-- C9 witness: the amended statement applied at the concrete endpoint
`"https://"`. -/
theorem C9_unparsable_endpoint_tolerated_witness :
    (mkSso "abc" "xyz" "https://app.example/cb" ⟨some "https://", none, none⟩).host =
      none :=
  (C9_unparsable_endpoint_tolerated "abc" "xyz" "https://app.example/cb"
    ⟨some "https://", none, none⟩ (by decide)).1

/-- C10: empty inputs are distinguished by shape: the empty scopes string
behaves as if scopes were omitted (constructor stores nothing,
`getRedirectUrl` falls back to defaults, `refreshToken` omits the scope
field), while the empty scopes sequence counts as supplied (constructor
stores `[]`, `getRedirectUrl` uses an empty scope value with no fallback,
`refreshToken` includes an empty scope field); an empty-string state is
treated as absent. -/
theorem C10_empty_string_vs_empty_sequence
    (clientId secretKey callbackUri : String) (e ua : Option String)
    (c : SingleSignOn) (state : Option String) (sc : Option ScopesArg) (rt : String) :
    mkSso clientId secretKey callbackUri ⟨e, ua, some (Sum.inl "")⟩ =
      mkSso clientId secretKey callbackUri ⟨e, ua, none⟩ ∧
    (mkSso clientId secretKey callbackUri ⟨e, ua, some (Sum.inr [])⟩).scopes =
      some [] ∧
    c.getRedirectUrl state (some (Sum.inl "")) = c.getRedirectUrl state none ∧
    resolveScope c (some (Sum.inr [])) = "" ∧
    c.refreshToken rt (some (Sum.inl "")) = c.refreshToken rt none ∧
    refreshPayload rt (some (Sum.inr [])) =
      [("grant_type", "refresh_token"), ("refresh_token", rt), ("scope", "")] ∧
    c.getRedirectUrl (some "") sc = c.getRedirectUrl none sc :=
  ⟨rfl, rfl, rfl, rfl, rfl, rfl, rfl⟩

end EveSso
